import Mathlib

/-!
Verification development for `persitent_usb.py`, a Btrfs persistent-USB
creation script.  The script is a sequential pipeline of external commands
(parted, mkfs, mount, umount, rsync, grub-install, ...) driven by a small
process runner (`run_cmd`).  We embed the script shallowly:

* external commands become constructors of `Cmd`; an environment `Env`
  assigns each issued command an `Outcome` (success with captured output,
  nonzero exit, timeout, or an unexpected exception), indexed by the
  position of the command in the run so that repeated commands may behave
  differently;
* the interpreter state `St` tracks the mount table (source, target
  pairs), the set of existing filesystem paths, a command counter and the
  log of issued commands and file writes;
* Python exceptions are modelled by the `PRes`/`PyErr` error layer:
  an operation of type `M α` either returns `.ok` or `.err e` together
  with the state at the raise point (Python destructors do not roll back
  state);
* `is_mounted` is modelled as an accurate query of the mount table (in the
  source it shells out to `mountpoint -q` with a `mount | grep` fallback,
  both wrapped in try/except, so it is total); it issues no command;
* `print` and `time.sleep` calls are ignored.
-/

/-! ### Python-style string helpers (ASCII fragment)

`str.strip`, `str.split('\n')`, `str.split()` and `os.path.basename` are
re-implemented over `List Char` so that concrete runs reduce in the kernel.
-/

def isPySpace (c : Char) : Bool :=
  c == ' ' || c == '\t' || c == '\n' || c == '\r' || c == '\x0b' || c == '\x0c'

def stripChars (l : List Char) : List Char :=
  ((l.dropWhile isPySpace).reverse.dropWhile isPySpace).reverse

/-- Python `s.strip()` (ASCII whitespace). -/
def pyStrip (s : String) : String := String.mk (stripChars s.data)

def splitCharAux (sep : Char) : List Char → List Char → List (List Char)
  | [], acc => [acc.reverse]
  | c :: rest, acc =>
    if c == sep then acc.reverse :: splitCharAux sep rest []
    else splitCharAux sep rest (c :: acc)

/-- Python `s.split(sep)` for a one-character separator: keeps empty pieces. -/
def pySplitChar (sep : Char) (s : String) : List String :=
  (splitCharAux sep s.data []).map String.mk

def wordsAux : List Char → List Char → List (List Char)
  | [], acc => if acc.isEmpty then [] else [acc.reverse]
  | c :: rest, acc =>
    if isPySpace c then
      if acc.isEmpty then wordsAux rest [] else acc.reverse :: wordsAux rest []
    else wordsAux rest (c :: acc)

/-- Python `s.split()` with no argument: split on whitespace runs, no empties. -/
def pyWords (s : String) : List String := (wordsAux s.data []).map String.mk

/-- `a.startswith(b)` over the ASCII fragment. -/
def pyStartsWith (s pre : String) : Bool := pre.data.isPrefixOf s.data

def infixAux (needle : List Char) : List Char → Bool
  | [] => needle.isEmpty
  | c :: rest => needle.isPrefixOf (c :: rest) || infixAux needle rest

/-- Python `needle in hay` for strings (substring test). -/
def pyContains (hay needle : String) : Bool :=
  needle.data.isEmpty || infixAux needle.data hay.data

/-- `os.path.basename`: the part after the last `/`. -/
def pyBasename (p : String) : String := (pySplitChar '/' p).getLastD ""

/-! ### Commands, outcomes, state -/

/-- End bound of a `parted mkpart` invocation: a MiB offset or `100%`. -/
inductive PEnd
  | miB (n : Nat)
  | pct100
  deriving DecidableEq, Repr

/-- The external commands the script issues, one constructor per distinct
shell-command template in the source (f-string parameters become fields). -/
inductive Cmd
  | aptUpdate
  | aptInstall
  | fuser (path : String)
  | umount (path : String)
  | umountLazy (path : String)
  | umountLazyGlob (device : String)
  | lsblkNames (device : String)
  | lsblkMounts (device : String)
  | wipefs (device : String)
  | ddZero (device : String)
  | partedMklabel (device : String)
  | partedMkpart (device fs : String) (startMiB : Nat) (stop : PEnd)
  | partedSetFlag (device : String) (num : Nat) (flag : String)
  | partprobe (device : String)
  | rereadpt (device : String)
  | mkfsVfat (label part : String)
  | mkfsBtrfs (part : String)
  | mountLoopRo (src tgt : String)
  | mountPart (src tgt : String)
  | mountBtrfs (src tgt : String)
  | btrfsSubvolCreate (path : String)
  | rsync (src tgt : String)
  | syncFs
  | grubBios (bootDir device : String)
  | grubEfi (espDir bootDir device : String)
  deriving DecidableEq, Repr

/-- Outcome of one external command, chosen by the environment. -/
inductive Outcome
  | ok (out : String)
  | fail
  | timeout
  | exc
  deriving DecidableEq, Repr

def outcomeOk : Outcome → Bool
  | .ok _ => true
  | _ => false

/-- Value returned by `run_cmd` in the source: `True`, `False`, `None`,
or a captured-output string. -/
inductive RVal
  | rTrue
  | rFalse
  | rNone
  | rStr (s : String)
  deriving DecidableEq, Repr

/-- Python truthiness of an `RVal` (`if not run_cmd(...)`, `if partitions:`). -/
def pyTruthy : RVal → Bool
  | .rTrue => true
  | .rFalse => false
  | .rNone => false
  | .rStr s => !(s == "")

/-- Python exceptions relevant to the script.  `SystemExit` and
`KeyboardInterrupt` are not subclasses of `Exception`. -/
inductive PyErr
  | timeoutExpired
  | calledProcess
  | exception (msg : String)
  | sysExit (code : Nat)
  | keyboardInterrupt
  deriving DecidableEq, Repr

/-- File kind reported by `os.stat` (after following symlinks). -/
inductive FKind
  | block
  | chr
  | reg
  | dir
  | other
  deriving DecidableEq, Repr

/-- Log events: issued external commands, file writes and directory creation. -/
inductive Ev
  | run (c : Cmd)
  | writeFile (path : String)
  | mkdirs (path : String)
  deriving DecidableEq, Repr

/-- Interpreter state: command counter, mount table (source, target),
existing filesystem paths, and the event log. -/
structure St where
  ctr : Nat
  mounted : List (String × String)
  paths : List String
  log : List Ev
  deriving DecidableEq, Repr

/-- Read-only environment: outcome of the k-th issued command, file kinds
for `os.stat`, tool availability for `check_requirements`, and the content
of `grub.cfg` if it is read. -/
structure Env where
  outcomes : Nat → Cmd → Outcome
  kindOf : String → FKind
  missingPkgs : Bool
  btrfsMissing : Bool
  grub : String

inductive PRes (α : Type)
  | ok (a : α)
  | err (e : PyErr)
  deriving DecidableEq, Repr

/-- The effect monad: state in, result (or uncaught exception) and state out. -/
def M (α : Type) : Type := St → PRes α × St

instance : Monad M where
  pure a := fun st => (.ok a, st)
  bind m f := fun st =>
    match m st with
    | (.ok a, st') => f a st'
    | (.err e, st') => (.err e, st')

/-- Raise a Python exception. -/
def pyRaise {α : Type} (e : PyErr) : M α := fun st => (.err e, st)

/-- `try: body except <caught>: handler` with a predicate selecting the
caught exception classes. -/
def pyTry {α : Type} (body : M α) (caught : PyErr → Bool) (handler : PyErr → M α) :
    M α := fun st =>
  match body st with
  | (.ok a, st') => (.ok a, st')
  | (.err e, st') => if caught e then handler e st' else (.err e, st')

/-- A bare `try ... except: pass`-style catch-all. -/
def pyTryAll {α : Type} (body : M α) (handler : M α) : M α :=
  pyTry body (fun _ => true) (fun _ => handler)

/-- A conditional statement inside a function body: run `m` when `c` holds. -/
def pyWhen (c : Prop) [Decidable c] (m : M Unit) : M Unit :=
  if c then m else pure ()

/-- Sequential `for x in xs: f(x)` (no break). -/
def forEachM {α : Type} (xs : List α) (f : α → M Unit) : M Unit :=
  match xs with
  | [] => pure ()
  | x :: rest => do
    f x
    forEachM rest f

/-- `os.path.exists`. -/
def pathExists (p : String) : M Bool := fun st => (.ok (st.paths.contains p), st)

/-- Mount-table effect of a successfully completed command.  A failed,
timed-out or raising command leaves the mount table unchanged. -/
def applyEff (mounted : List (String × String)) (c : Cmd) (success : Bool) :
    List (String × String) :=
  if !success then mounted
  else
    match c with
    | .umount p => mounted.filter (fun m => !(m.1 == p || m.2 == p))
    | .umountLazy p => mounted.filter (fun m => !(m.1 == p || m.2 == p))
    | .umountLazyGlob d => mounted.filter (fun m => !(pyStartsWith m.1 d))
    | .mountLoopRo s t => (s, t) :: mounted
    | .mountPart s t => (s, t) :: mounted
    | .mountBtrfs s t => (s, t) :: mounted
    | _ => mounted

/-- State transition for issuing one external command. -/
def stepSt (st : St) (c : Cmd) (o : Outcome) : St :=
  { st with
    ctr := st.ctr + 1
    log := st.log ++ [Ev.run c]
    mounted := applyEff st.mounted c (outcomeOk o) }

/-- Return value of `run_cmd` as a function of the command outcome and the
`check` / `capture` / `ignore_error` flags, one branch per `except` clause
of the source (`subprocess.TimeoutExpired`, `subprocess.CalledProcessError`,
bare `Exception`); every case returns, so `run_cmd` never raises. -/
def runVal (o : Outcome) (check capture ignErr : Bool) : RVal :=
  match o with
  | .ok out => if capture then .rStr (pyStrip out) else .rTrue
  | .fail =>
    if capture then (if ignErr then .rNone else .rFalse)
    else if check then (if ignErr then .rNone else .rFalse)
    else .rTrue
  | .timeout => if ignErr then .rNone else .rFalse
  | .exc => .rFalse

/-- The source's process runner (source lines 38-75), taking the command and
the `check`, `capture`, `ignore_error` flags.  (The source spells the name
with an underscore; that spelling is a reserved command name in Lean, so the
camel-case spelling is used here.) -/
def runCmd (env : Env) (c : Cmd) (check capture ignErr : Bool) : M RVal :=
  fun st =>
    (.ok (runVal (env.outcomes st.ctr c) check capture ignErr),
     stepSt st c (env.outcomes st.ctr c))

/-- `subprocess.run("sync", shell=True, timeout=SYNC_TIMEOUT)` (used
directly, not through `run_cmd`): a timeout raises `TimeoutExpired`, an
unexpected failure of the call raises a generic exception. -/
def syncRun (env : Env) : M Unit := fun st =>
  let o := env.outcomes st.ctr .syncFs
  let st' := { st with ctr := st.ctr + 1, log := st.log ++ [Ev.run .syncFs] }
  match o with
  | .timeout => (.err .timeoutExpired, st')
  | .exc => (.err (.exception "subprocess"), st')
  | _ => (.ok (), st')

/-- `is_mounted(path)` (source lines 122-143): queries `mountpoint -q` with
a `mount | grep` fallback; both branches are wrapped in try/except, so the
function is total.  Modelled as an accurate query of the mount table. -/
def is_mounted (p : String) : M Bool := fun st =>
  (.ok (st.mounted.any (fun m => m.2 == p)), st)

/-- File write via `open(path, "w")`: records the event, the path exists
afterwards. -/
def writeFileOp (p : String) : M Unit := fun st =>
  (.ok (), { st with log := st.log ++ [Ev.writeFile p],
                     paths := if st.paths.contains p then st.paths else st.paths ++ [p] })

/-- `os.makedirs(path, exist_ok=True)`. -/
def mkdirsOp (p : String) : M Unit := fun st =>
  (.ok (), { st with log := st.log ++ [Ev.mkdirs p],
                     paths := if st.paths.contains p then st.paths else st.paths ++ [p] })

/-! ### Constants (source lines 16-27) -/

def ISO_MOUNT : String := "/mnt/iso_temp"
def USB_BOOT : String := "/mnt/usb_boot"
def USB_PERSIST : String := "/mnt/usb_persist"
def ESP_MOUNT : String := "/mnt/esp_temp"

def BOOT_SIZE_GB : Nat := 4
def ESP_SIZE_MB : Nat := 512

/-! ### Mount manager -/

/-- Body of the retry loop of `force_unmount` (source lines 151-174).
`attempt` is the 0-based loop index, the second `Nat` argument is the
number of iterations left; `maxAttempts` is the source's `max_attempts`.
Per iteration: return if no longer mounted; `fuser -km` on attempts after
the first; plain `umount`; return if that freed the path; `umount -l` on
the final attempt only.  When the loop exhausts, the final check of source
lines 177-181 decides the result. -/
def fuLoop (env : Env) (path : String) (maxAttempts : Nat) :
    Nat → Nat → M Bool
  | _, 0 => do
    let m ← is_mounted path
    pure (!m)
  | attempt, rem + 1 => do
    let m ← is_mounted path
    if !m then
      pure true
    else do
      pyWhen (attempt > 0) (do
        _ ← runCmd env (.fuser path) false false true
        pure ())
      _ ← runCmd env (.umount path) false false true
      let m2 ← is_mounted path
      if !m2 then
        pure true
      else do
        pyWhen (attempt == maxAttempts - 1) (do
          _ ← runCmd env (.umountLazy path) false false true
          pure ())
        fuLoop env path maxAttempts (attempt + 1) rem

/-- `force_unmount(path, max_attempts=3)` (source lines 146-181): returns
`True` immediately when the path does not exist, otherwise runs the retry
loop. -/
def force_unmount (env : Env) (path : String) (maxAttempts : Nat) : M Bool := do
  let ex ← pathExists path
  if !ex then pure true
  else fuLoop env path maxAttempts 0 maxAttempts

/-- The mount-point list of `unmount_all` (source lines 189-190). -/
def allMounts : List String :=
  [ISO_MOUNT, USB_BOOT, USB_PERSIST, ESP_MOUNT, "/mnt/iso", "/mnt/usb", "/mnt/esp"]

/-- `unmount_all(device)` (source lines 184-222): `fuser -km` every
existing known mount point, `force_unmount` each of them, lazily unmount
every partition `lsblk` lists under the device (inside a bare
try/except), then a final lazy-unmount sweep over `device*`. -/
def unmount_all (env : Env) (device : String) : M Unit := do
  forEachM allMounts (fun m => do
    let ex ← pathExists m
    if ex then do
      _ ← runCmd env (.fuser m) false false true
      pure ()
    else
      pure ())
  forEachM allMounts (fun m => do
    let ex ← pathExists m
    if ex then do
      _ ← force_unmount env m 3
      pure ()
    else
      pure ())
  pyTryAll
    (do
      let parts ← runCmd env (.lsblkNames device) true true true
      match parts with
      | .rStr s =>
        if !(s == "") then
          forEachM (pySplitChar '\n' s) (fun part =>
            if !(pyStrip part == "") then do
              _ ← runCmd env (.umountLazy ("/dev/" ++ pyStrip part)) false false true
              pure ()
            else
              pure ())
        else
          pure ()
      | _ => pure ())
    (pure ())
  _ ← runCmd env (.umountLazyGlob device) false false true
  pure ()

/-- `prepare_mount_points()` (source lines 225-232). -/
def prepare_mount_points : M Unit :=
  forEachM [ISO_MOUNT, USB_BOOT, USB_PERSIST, ESP_MOUNT] mkdirsOp

/-! ### Partition planner -/

/-- `get_partition_names(device)` (source lines 235-241). -/
def get_partition_names (device : String) : String × String × String :=
  let b := pyBasename device
  if pyStartsWith b "mmcblk" || pyStartsWith b "nvme" || pyStartsWith b "loop" then
    (device ++ "p1", device ++ "p2", device ++ "p3")
  else
    (device ++ "1", device ++ "2", device ++ "3")

/-- Poll loop of `wait_for_partitions` (source lines 253-260): first `Nat`
is the loop index `i`, second the iterations left; re-issues `partprobe`
whenever `i % 3 == 0`.  After exhausting the loop the function settles for
the first two partitions existing (source line 263). -/
def wfpLoop (env : Env) (device p1 p2 p3 : String) : Nat → Nat → M Bool
  | _, 0 => do
    let e1 ← pathExists p1
    let e2 ← pathExists p2
    pure (e1 && e2)
  | i, rem + 1 => do
    let e1 ← pathExists p1
    let e2 ← pathExists p2
    let e3 ← pathExists p3
    if e1 && e2 && e3 then
      pure true
    else do
      pyWhen (i % 3 == 0) (do
        _ ← runCmd env (.partprobe device) true false true
        pure ())
      wfpLoop env device p1 p2 p3 (i + 1) rem

/-- `wait_for_partitions(device, timeout=15)` (source lines 244-263). -/
def wait_for_partitions (env : Env) (device : String) (tmo : Nat) : M Bool := do
  _ ← runCmd env (.partprobe device) true false true
  _ ← runCmd env (.rereadpt device) true false true
  let (p1, p2, p3) := get_partition_names device
  wfpLoop env device p1 p2 p3 0 tmo

/-- `create_partitions(device)` (source lines 266-320): wipe signatures and
the first 10 MiB, `parted mklabel gpt`, the three `mkpart` calls with the
two flag settings (the numeric bounds are exactly the source's:
`1MiB..{ESP_SIZE_MB}MiB`, `{ESP_SIZE_MB}MiB..{boot_end}MiB`,
`{boot_end}MiB..100%` with `boot_end = ESP_SIZE_MB + BOOT_SIZE_GB*1024`),
wait for the partition nodes, then format each partition after a
defensive unmount.  All `run_cmd` return values are discarded. -/
def create_partitions (env : Env) (device : String) : M Unit := do
  _ ← runCmd env (.wipefs device) true false true
  _ ← runCmd env (.ddZero device) true false true
  _ ← runCmd env (.partedMklabel device) true false false
  _ ← runCmd env (.partedMkpart device "fat32" 1 (.miB ESP_SIZE_MB)) true false false
  _ ← runCmd env (.partedSetFlag device 1 "esp") true false false
  let bootEnd := ESP_SIZE_MB + BOOT_SIZE_GB * 1024
  _ ← runCmd env (.partedMkpart device "fat32" ESP_SIZE_MB (.miB bootEnd)) true false false
  _ ← runCmd env (.partedSetFlag device 2 "boot") true false false
  _ ← runCmd env (.partedMkpart device "btrfs" bootEnd .pct100) true false false
  _ ← wait_for_partitions env device 15
  let (p1, p2, p3) := get_partition_names device
  _ ← runCmd env (.umount p1) false false true
  _ ← runCmd env (.mkfsVfat "EFI" p1) true false false
  _ ← runCmd env (.umount p2) false false true
  _ ← runCmd env (.mkfsVfat "BOOT" p2) true false false
  _ ← runCmd env (.umount p3) false false true
  _ ← runCmd env (.mkfsBtrfs p3) true false false
  pure ()

/-! ### Pipeline stages -/

/-- `setup_btrfs_subvolumes(device)` (source lines 323-358). -/
def setup_btrfs_subvolumes (env : Env) (device : String) : M Bool := do
  let (_, _, p3) := get_partition_names device
  prepare_mount_points
  _ ← force_unmount env USB_PERSIST 3
  let r ← runCmd env (.mountBtrfs p3 USB_PERSIST) true false false
  if !(pyTruthy r) then
    pure false
  else do
    forEachM ["@rootfs", "@home", "@snapshots", "@work"] (fun subvol => do
      _ ← runCmd env (.btrfsSubvolCreate (USB_PERSIST ++ "/" ++ subvol)) true false true
      pure ())
    mkdirsOp (USB_PERSIST ++ "/@rootfs/upper")
    mkdirsOp (USB_PERSIST ++ "/@rootfs/work")
    mkdirsOp (USB_PERSIST ++ "/@home/user")
    _ ← force_unmount env USB_PERSIST 3
    pure true

/-- `copy_iso_contents(iso_path, device)` (source lines 361-410).  Note
that the `rsync` invocation uses `check=False` and its return value is
discarded: only the two mount commands decide the stage's result. -/
def copy_iso_contents (env : Env) (isoPath device : String) : M Bool := do
  prepare_mount_points
  let (_, p2, _) := get_partition_names device
  _ ← force_unmount env ISO_MOUNT 3
  let r1 ← runCmd env (.mountLoopRo isoPath ISO_MOUNT) true false false
  if !(pyTruthy r1) then
    pure false
  else do
    _ ← force_unmount env USB_BOOT 3
    let r2 ← runCmd env (.mountPart p2 USB_BOOT) true false false
    if !(pyTruthy r2) then do
      _ ← force_unmount env ISO_MOUNT 3
      pure false
    else do
      _ ← runCmd env (.rsync ISO_MOUNT USB_BOOT) false false false
      syncRun env
      _ ← force_unmount env USB_BOOT 3
      _ ← force_unmount env ISO_MOUNT 3
      pure true

/-- `configure_persistence(device)` (source lines 413-463): mount the boot
partition, write `persistence.conf`, patch `grub.cfg` (only when the file
exists and does not already mention persistence), sync, unmount.  The
file operations are inside try/except blocks; the modelled write always
succeeds. -/
def configure_persistence (env : Env) (device : String) : M Bool := do
  let (_, p2, _) := get_partition_names device
  _ ← force_unmount env USB_BOOT 3
  let r ← runCmd env (.mountPart p2 USB_BOOT) true false false
  if !(pyTruthy r) then
    pure false
  else do
    writeFileOp (USB_BOOT ++ "/persistence.conf")
    let grubCfg := USB_BOOT ++ "/boot/grub/grub.cfg"
    let ex ← pathExists grubCfg
    pyWhen ex (pyWhen (!(pyContains env.grub "persistence")) (writeFileOp grubCfg))
    syncRun env
    _ ← force_unmount env USB_BOOT 3
    pure true

/-- `install_bootloader(device)` (source lines 466-514): both
`grub-install` invocations are advisory (`check=False, ignore_error=True`);
the ESP mount is likewise advisory. -/
def install_bootloader (env : Env) (device : String) : M Bool := do
  let (p1, p2, _) := get_partition_names device
  _ ← force_unmount env USB_BOOT 3
  let r ← runCmd env (.mountPart p2 USB_BOOT) true false false
  if !(pyTruthy r) then
    pure false
  else do
    _ ← runCmd env (.grubBios (USB_BOOT ++ "/boot") device) false false true
    prepare_mount_points
    _ ← force_unmount env ESP_MOUNT 3
    let re ← runCmd env (.mountPart p1 ESP_MOUNT) false false true
    pyWhen (pyTruthy re) (do
      _ ← runCmd env (.grubEfi ESP_MOUNT (USB_BOOT ++ "/boot") device) false false true
      _ ← force_unmount env ESP_MOUNT 3
      pure ())
    _ ← force_unmount env USB_BOOT 3
    pure true

/-- `create_readme(device)` (source lines 517-575). -/
def create_readme (env : Env) (device : String) : M Unit := do
  let (_, p2, _) := get_partition_names device
  _ ← force_unmount env USB_BOOT 3
  let r ← runCmd env (.mountPart p2 USB_BOOT) false false true
  if pyTruthy r then do
    writeFileOp (USB_BOOT ++ "/README.txt")
    _ ← force_unmount env USB_BOOT 3
    pure ()
  else
    pure ()

/-- `check_requirements()` (source lines 85-119): when tools are missing,
try `apt-get update` (advisory) and `apt-get install` (checked, result
ignored), then `sys.exit(1)` if `mkfs.btrfs` is still absent.
`sys.exit` raises `SystemExit`, which `except Exception` does not catch. -/
def check_requirements (env : Env) : M Unit := do
  if env.missingPkgs then do
    _ ← runCmd env .aptUpdate true false true
    _ ← runCmd env .aptInstall true false false
    if env.btrfsMissing then pyRaise (.sysExit 1) else pure ()
  else
    pure ()

/-! ### Device validator -/

/-- The protected mountpoints of the safety check (source line 603). -/
def criticalMounts : List String := ["/", "/boot", "/boot/efi", "/home", "/usr", "/var"]

/-- One line of `lsblk -ln -o NAME,MOUNTPOINT` triggers the safety abort
when it has at least two whitespace-separated fields and the second is a
protected mountpoint (source lines 605-612). -/
def criticalLine (line : String) : Bool :=
  match pyWords line with
  | _ :: m :: _ => criticalMounts.contains m
  | _ => false

def anyCriticalLine (out : String) : Bool :=
  (pySplitChar '\n' out).any criticalLine

/-- `validate_device(device)` (source lines 578-616): existence check,
`stat.S_ISBLK` check, then the safety check over `lsblk` output; the
safety block is wrapped in a try/except whose handler falls through to
`return True`.  An empty or absent `lsblk` result skips the safety check. -/
def validate_device (env : Env) (device : String) : M Bool := do
  let ex ← pathExists device
  if !ex then
    pure false
  else if !(env.kindOf device == .block) then
    pure false
  else
    pyTryAll
      (do
        let out ← runCmd env (.lsblkMounts device) true true true
        match out with
        | .rStr s =>
          if !(s == "") then
            if anyCriticalLine s then pure false else pure true
          else
            pure true
        | _ => pure true)
      (pure true)

/-! ### Main pipeline -/

/-- The body of `main`'s try block (source lines 707-724): the ordered
stage sequence.  A falsy result of the copy or persistence stage raises
`Exception`; `install_bootloader`'s result is ignored. -/
def pipeline (env : Env) (isoPath device : String) : M Unit := do
  check_requirements env
  unmount_all env device
  create_partitions env device
  _ ← setup_btrfs_subvolumes env device
  let c ← copy_iso_contents env isoPath device
  pyWhen (!c) (pyRaise (.exception "Failed to copy ISO"))
  let p ← configure_persistence env device
  pyWhen (!p) (pyRaise (.exception "Failed to configure persistence"))
  _ ← install_bootloader env device
  create_readme env device
  unmount_all env device
  syncRun env

/-- `main` from the confirmation prompt onward (source lines 694-745):
`input().strip() != "YES"` exits with code 0 before any destructive
action; otherwise the pipeline runs, `KeyboardInterrupt` and `Exception`
both trigger the `unmount_all` cleanup and `sys.exit(1)`, and an uncaught
`SystemExit n` ends the process with code `n`.  The result is the process
exit code (0 on the success path) paired with the final state. -/
def main_run (env : Env) (isoPath device confirmInput : String) :
    St → Nat × St := fun st =>
  if !(pyStrip confirmInput == "YES") then
    (0, st)
  else
    match pipeline env isoPath device st with
    | (.ok _, st') => (0, st')
    | (.err e, st') =>
      match e with
      | .sysExit n => (n, st')
      | _ =>
        match unmount_all env device st' with
        | (_, stc) => (1, stc)


/-! ### Execution lemmas

The closed pipeline runs are too large to evaluate in one kernel
reduction, so concrete facts about `main_run` are derived from
compositional lemmas: `MTot m` says `m` returns normally from every state
and only appends to the event log; `MNil m` says `m` returns normally
from every state with an empty mount table and leaves the mount table
empty. -/

theorem bind_eq {α β : Type} (m : M α) (f : α → M β) (st : St) :
    (m >>= f) st =
      match m st with
      | (.ok a, st') => f a st'
      | (.err e, st') => (.err e, st') := rfl

theorem pure_eq {α : Type} (a : α) (st : St) : (pure a : M α) st = (.ok a, st) := rfl

theorem outcomeOk_iff (o : Outcome) : outcomeOk o = true ↔ ∃ out, o = .ok out := by
  cases o <;> simp [outcomeOk]

def MTot {α : Type} (m : M α) : Prop :=
  ∀ st, ∃ a st', m st = (.ok a, st') ∧ st.log <+: st'.log

def MNil {α : Type} (m : M α) : Prop :=
  ∀ st, st.mounted = [] → ∃ a st', m st = (.ok a, st') ∧ st'.mounted = []

theorem mtot_pure {α : Type} (a : α) : MTot (pure a : M α) :=
  fun st => ⟨a, st, rfl, List.prefix_rfl⟩

theorem mtot_bind {α β : Type} {m : M α} {f : α → M β}
    (hm : MTot m) (hf : ∀ a, MTot (f a)) : MTot (m >>= f) := by
  intro st
  obtain ⟨a, st1, h1, p1⟩ := hm st
  obtain ⟨b, st2, h2, p2⟩ := hf a st1
  refine ⟨b, st2, ?_, p1.trans p2⟩
  rw [bind_eq, h1]
  exact h2

theorem mtot_ite {α : Type} {c : Prop} [Decidable c] {m1 m2 : M α}
    (h1 : MTot m1) (h2 : MTot m2) : MTot (if c then m1 else m2) := by
  split <;> assumption

theorem mtot_pyWhen {c : Prop} [Decidable c] {m : M Unit} (h : MTot m) :
    MTot (pyWhen c m) :=
  mtot_ite h (mtot_pure ())

theorem mtot_runCmd (env : Env) (c : Cmd) (k cap ig : Bool) :
    MTot (runCmd env c k cap ig) := by
  intro st
  exact ⟨_, _, rfl, List.prefix_append _ _⟩

theorem mtot_pathExists (p : String) : MTot (pathExists p) :=
  fun st => ⟨_, st, rfl, List.prefix_rfl⟩

theorem mtot_isMounted (p : String) : MTot (is_mounted p) :=
  fun st => ⟨_, st, rfl, List.prefix_rfl⟩

theorem mtot_writeFileOp (p : String) : MTot (writeFileOp p) :=
  fun st => ⟨_, _, rfl, List.prefix_append _ _⟩

theorem mtot_mkdirsOp (p : String) : MTot (mkdirsOp p) :=
  fun st => ⟨_, _, rfl, List.prefix_append _ _⟩

theorem mtot_forEachM {α : Type} (xs : List α) (f : α → M Unit)
    (hf : ∀ x, MTot (f x)) : MTot (forEachM xs f) := by
  induction xs with
  | nil => exact mtot_pure ()
  | cons x rest ih =>
    show MTot (f x >>= fun _ => forEachM rest f)
    exact mtot_bind (hf x) (fun _ => ih)

theorem mtot_pyTryAll {α : Type} {body handler : M α}
    (hb : MTot body) : MTot (pyTryAll body handler) := by
  intro st
  obtain ⟨a, st', h, p⟩ := hb st
  refine ⟨a, st', ?_, p⟩
  simp [pyTryAll, pyTry, h]

theorem mtot_fuLoop (env : Env) (p : String) (maxA : Nat) :
    ∀ rem attempt, MTot (fuLoop env p maxA attempt rem) := by
  intro rem
  induction rem with
  | zero =>
    intro attempt
    show MTot (is_mounted p >>= fun m => pure (!m))
    exact mtot_bind (mtot_isMounted p) (fun m => mtot_pure (!m))
  | succ n ih =>
    intro attempt
    show MTot (is_mounted p >>= _)
    apply mtot_bind (mtot_isMounted p)
    intro m
    apply mtot_ite (mtot_pure true)
    apply mtot_bind
    · exact mtot_pyWhen (mtot_bind (mtot_runCmd env (.fuser p) false false true)
        (fun _ => mtot_pure ()))
    intro u
    apply mtot_bind (mtot_runCmd env (.umount p) false false true)
    intro v
    apply mtot_bind (mtot_isMounted p)
    intro m2
    apply mtot_ite (mtot_pure true)
    apply mtot_bind
    · exact mtot_pyWhen (mtot_bind (mtot_runCmd env (.umountLazy p) false false true)
        (fun _ => mtot_pure ()))
    intro w
    exact ih (attempt + 1)

theorem mtot_force_unmount (env : Env) (p : String) (n : Nat) :
    MTot (force_unmount env p n) := by
  show MTot (pathExists p >>= _)
  refine mtot_bind (mtot_pathExists p) (fun ex => ?_)
  exact mtot_ite (mtot_pure true) (mtot_fuLoop env p n n 0)

theorem mtot_unmount_all (env : Env) (device : String) :
    MTot (unmount_all env device) := by
  show MTot (_ >>= _)
  refine mtot_bind (mtot_forEachM _ _ (fun m => ?_)) (fun _ => ?_)
  · exact mtot_bind (mtot_pathExists m) (fun ex => mtot_ite
      (mtot_bind (mtot_runCmd env (.fuser m) false false true) (fun _ => mtot_pure ()))
      (mtot_pure ()))
  refine mtot_bind (mtot_forEachM _ _ (fun m => ?_)) (fun _ => ?_)
  · exact mtot_bind (mtot_pathExists m) (fun ex => mtot_ite
      (mtot_bind (mtot_force_unmount env m 3) (fun _ => mtot_pure ()))
      (mtot_pure ()))
  refine mtot_bind (mtot_pyTryAll ?_) (fun _ => ?_)
  · refine mtot_bind (mtot_runCmd env (.lsblkNames device) true true true) (fun parts => ?_)
    match parts with
    | .rStr s =>
      refine mtot_ite ?_ (mtot_pure ())
      refine mtot_forEachM _ _ (fun part => ?_)
      exact mtot_ite
        (mtot_bind (mtot_runCmd env (.umountLazy ("/dev/" ++ pyStrip part)) false false true)
          (fun _ => mtot_pure ()))
        (mtot_pure ())
    | .rTrue => exact mtot_pure ()
    | .rFalse => exact mtot_pure ()
    | .rNone => exact mtot_pure ()
  exact mtot_bind (mtot_runCmd env (.umountLazyGlob device) false false true)
    (fun _ => mtot_pure ())

theorem mnil_pure {α : Type} (a : α) : MNil (pure a : M α) :=
  fun st h => ⟨a, st, rfl, h⟩

theorem mnil_bind {α β : Type} {m : M α} {f : α → M β}
    (hm : MNil m) (hf : ∀ a, MNil (f a)) : MNil (m >>= f) := by
  intro st h
  obtain ⟨a, st1, h1, n1⟩ := hm st h
  obtain ⟨b, st2, h2, n2⟩ := hf a st1 n1
  refine ⟨b, st2, ?_, n2⟩
  rw [bind_eq, h1]
  exact h2

theorem mnil_ite {α : Type} {c : Prop} [Decidable c] {m1 m2 : M α}
    (h1 : MNil m1) (h2 : MNil m2) : MNil (if c then m1 else m2) := by
  split <;> assumption

theorem mnil_pyWhen {c : Prop} [Decidable c] {m : M Unit} (h : MNil m) :
    MNil (pyWhen c m) :=
  mnil_ite h (mnil_pure ())

/-- Commands that never add an entry to the mount table. -/
def noMountEff : Cmd → Bool
  | .mountLoopRo _ _ => false
  | .mountPart _ _ => false
  | .mountBtrfs _ _ => false
  | _ => true

theorem applyEff_nil (c : Cmd) (b : Bool) (h : noMountEff c = true) :
    applyEff [] c b = [] := by
  cases b <;> cases c <;> simp_all [applyEff, noMountEff]

theorem mnil_runCmd (env : Env) (c : Cmd) (k cap ig : Bool)
    (h : noMountEff c = true) : MNil (runCmd env c k cap ig) := by
  intro st hm
  refine ⟨_, _, rfl, ?_⟩
  simp [stepSt, hm, applyEff_nil _ _ h]

theorem mnil_pathExists (p : String) : MNil (pathExists p) :=
  fun st h => ⟨_, st, rfl, h⟩

theorem mnil_pyTryAll {α : Type} {body handler : M α}
    (hb : MNil body) : MNil (pyTryAll body handler) := by
  intro st h
  obtain ⟨a, st', h', n'⟩ := hb st h
  refine ⟨a, st', ?_, n'⟩
  simp [pyTryAll, pyTry, h']

theorem mnil_forEachM {α : Type} (xs : List α) (f : α → M Unit)
    (hf : ∀ x, MNil (f x)) : MNil (forEachM xs f) := by
  induction xs with
  | nil => exact mnil_pure ()
  | cons x rest ih =>
    show MNil (f x >>= fun _ => forEachM rest f)
    exact mnil_bind (hf x) (fun _ => ih)

/-- On an empty mount table `force_unmount` is the identity: the first
`is_mounted` query is false, so no command is issued (source line 152-153);
a nonexistent path returns immediately (source line 148-149). -/
theorem fu_nil (env : Env) (p : String) (n : Nat) (st : St) (h : st.mounted = []) :
    force_unmount env p n st = (.ok true, st) := by
  have hm : is_mounted p st = (.ok false, st) := by simp [is_mounted, h]
  by_cases hc : p ∈ st.paths
  · cases n with
    | zero => simp [force_unmount, bind_eq, pathExists, fuLoop, hm, pure_eq, hc]
    | succ k => simp [force_unmount, bind_eq, pathExists, fuLoop, hm, pure_eq, hc]
  · simp [force_unmount, bind_eq, pathExists, pure_eq, hc]

theorem mnil_force_unmount (env : Env) (p : String) (n : Nat) :
    MNil (force_unmount env p n) :=
  fun st h => ⟨true, st, fu_nil env p n st h, h⟩

theorem mnil_unmount_all (env : Env) (device : String) :
    MNil (unmount_all env device) := by
  show MNil (_ >>= _)
  apply mnil_bind (mnil_forEachM _ _ (fun m => ?_))
  on_goal 2 =>
    exact mnil_bind (mnil_pathExists m) (fun ex => mnil_ite
      (mnil_bind (mnil_runCmd env (.fuser m) false false true rfl) (fun _ => mnil_pure ()))
      (mnil_pure ()))
  intro u
  apply mnil_bind (mnil_forEachM _ _ (fun m => ?_))
  on_goal 2 =>
    exact mnil_bind (mnil_pathExists m) (fun ex => mnil_ite
      (mnil_bind (mnil_force_unmount env m 3) (fun _ => mnil_pure ()))
      (mnil_pure ()))
  intro v
  apply mnil_bind (mnil_pyTryAll ?_)
  on_goal 2 =>
    refine mnil_bind (mnil_runCmd env (.lsblkNames device) true true true rfl)
      (fun parts => ?_)
    match parts with
    | .rStr s =>
      refine mnil_ite ?_ (mnil_pure ())
      refine mnil_forEachM _ _ (fun part => ?_)
      exact mnil_ite
        (mnil_bind (mnil_runCmd env (.umountLazy ("/dev/" ++ pyStrip part)) false false true rfl)
          (fun _ => mnil_pure ()))
        (mnil_pure ())
    | .rTrue => exact mnil_pure ()
    | .rFalse => exact mnil_pure ()
    | .rNone => exact mnil_pure ()
  intro w
  exact mnil_bind (mnil_runCmd env (.umountLazyGlob device) false false true rfl)
    (fun _ => mnil_pure ())

/-! ### Outcome-class hypotheses and value lemmas -/

/-- Every issue of command `c` in `env` exits successfully. -/
def okCmd (env : Env) (c : Cmd) : Prop := ∀ k, outcomeOk (env.outcomes k c) = true

/-- Every issue of command `c` in `env` fails (nonzero exit, timeout or
unexpected exception). -/
def failCmd (env : Env) (c : Cmd) : Prop := ∀ k, outcomeOk (env.outcomes k c) = false

/-- The direct `sync` invocations neither time out nor raise. -/
def syncSafe (env : Env) : Prop :=
  ∀ k, env.outcomes k .syncFs ≠ .timeout ∧ env.outcomes k .syncFs ≠ .exc

theorem runCmd_eq (env : Env) (c : Cmd) (k cap ig : Bool) (st : St) :
    runCmd env c k cap ig st =
      (.ok (runVal (env.outcomes st.ctr c) k cap ig),
       stepSt st c (env.outcomes st.ctr c)) := rfl

theorem runVal_ok {o : Outcome} (h : outcomeOk o = true) (k ig : Bool) :
    runVal o k false ig = .rTrue := by
  cases o <;> simp_all [runVal, outcomeOk]

theorem runVal_bad {o : Outcome} (h : outcomeOk o = false) :
    runVal o true false false = .rFalse := by
  cases o <;> simp_all [runVal, outcomeOk]

theorem bind_ok {α β : Type} {m : M α} {f : α → M β} {st st1 : St} {a : α}
    (h : m st = (.ok a, st1)) : (m >>= f) st = f a st1 := by
  rw [bind_eq, h]

theorem syncRun_ok {env : Env} (h : syncSafe env) (st : St) :
    syncRun env st =
      (.ok (), { st with ctr := st.ctr + 1, log := st.log ++ [.run .syncFs] }) := by
  obtain ⟨h1, h2⟩ := h st.ctr
  cases he : env.outcomes st.ctr .syncFs with
  | ok out => simp [syncRun, he]
  | fail => simp [syncRun, he]
  | timeout => exact absurd he h1
  | exc => exact absurd he h2

theorem stepSt_log (st : St) (c : Cmd) (o : Outcome) :
    (stepSt st c o).log = st.log ++ [Ev.run c] := rfl

theorem stepSt_prefix (st : St) (c : Cmd) (o : Outcome) :
    st.log <+: (stepSt st c o).log := List.prefix_append _ _

/-! ### Stage totality lemmas -/

theorem mtot_prepare : MTot prepare_mount_points :=
  mtot_forEachM _ _ (fun p => mtot_mkdirsOp p)

theorem mtot_syncRun {env : Env} (h : syncSafe env) : MTot (syncRun env) := by
  intro st
  exact ⟨(), _, syncRun_ok h st, List.prefix_append _ _⟩

theorem mtot_wfpLoop (env : Env) (device p1 p2 p3 : String) :
    ∀ rem i, MTot (wfpLoop env device p1 p2 p3 i rem) := by
  intro rem
  induction rem with
  | zero =>
    intro i
    show MTot (pathExists p1 >>= _)
    apply mtot_bind (mtot_pathExists p1)
    intro e1
    exact mtot_bind (mtot_pathExists p2) (fun e2 => mtot_pure _)
  | succ n ih =>
    intro i
    show MTot (pathExists p1 >>= _)
    apply mtot_bind (mtot_pathExists p1)
    intro e1
    apply mtot_bind (mtot_pathExists p2)
    intro e2
    apply mtot_bind (mtot_pathExists p3)
    intro e3
    apply mtot_ite (mtot_pure true)
    apply mtot_bind
    · exact mtot_pyWhen (mtot_bind (mtot_runCmd env (.partprobe device) true false true)
        (fun _ => mtot_pure ()))
    intro u
    exact ih (i + 1)

theorem mtot_wait_for_partitions (env : Env) (device : String) (tmo : Nat) :
    MTot (wait_for_partitions env device tmo) := by
  rcases hgp : get_partition_names device with ⟨p1, p2, p3⟩
  show MTot (_ >>= _)
  apply mtot_bind (mtot_runCmd env (.partprobe device) true false true)
  intro u
  apply mtot_bind (mtot_runCmd env (.rereadpt device) true false true)
  intro v
  simp only [hgp]
  exact mtot_wfpLoop env device p1 p2 p3 tmo 0

theorem mtot_create_partitions (env : Env) (device : String) :
    MTot (create_partitions env device) := by
  rcases hgp : get_partition_names device with ⟨p1, p2, p3⟩
  show MTot (_ >>= _)
  apply mtot_bind (mtot_runCmd env (.wipefs device) true false true)
  intro a1
  apply mtot_bind (mtot_runCmd env (.ddZero device) true false true)
  intro a2
  apply mtot_bind (mtot_runCmd env (.partedMklabel device) true false false)
  intro a3
  apply mtot_bind (mtot_runCmd env (.partedMkpart device "fat32" 1 (.miB ESP_SIZE_MB))
    true false false)
  intro a4
  apply mtot_bind (mtot_runCmd env (.partedSetFlag device 1 "esp") true false false)
  intro a5
  apply mtot_bind (mtot_runCmd env
    (.partedMkpart device "fat32" ESP_SIZE_MB (.miB (ESP_SIZE_MB + BOOT_SIZE_GB * 1024)))
    true false false)
  intro a6
  apply mtot_bind (mtot_runCmd env (.partedSetFlag device 2 "boot") true false false)
  intro a7
  apply mtot_bind (mtot_runCmd env
    (.partedMkpart device "btrfs" (ESP_SIZE_MB + BOOT_SIZE_GB * 1024) .pct100)
    true false false)
  intro a8
  apply mtot_bind (mtot_wait_for_partitions env device 15)
  intro a9
  simp only [hgp]
  apply mtot_bind (mtot_runCmd env (.umount p1) false false true)
  intro b1
  apply mtot_bind (mtot_runCmd env (.mkfsVfat "EFI" p1) true false false)
  intro b2
  apply mtot_bind (mtot_runCmd env (.umount p2) false false true)
  intro b3
  apply mtot_bind (mtot_runCmd env (.mkfsVfat "BOOT" p2) true false false)
  intro b4
  apply mtot_bind (mtot_runCmd env (.umount p3) false false true)
  intro b5
  exact mtot_bind (mtot_runCmd env (.mkfsBtrfs p3) true false false)
    (fun _ => mtot_pure ())

theorem mtot_setup_btrfs_subvolumes (env : Env) (device : String) :
    MTot (setup_btrfs_subvolumes env device) := by
  rcases hgp : get_partition_names device with ⟨p1, p2, p3⟩
  simp only [setup_btrfs_subvolumes, hgp]
  apply mtot_bind mtot_prepare
  intro u
  apply mtot_bind (mtot_force_unmount env USB_PERSIST 3)
  intro v
  apply mtot_bind (mtot_runCmd env (.mountBtrfs p3 USB_PERSIST) true false false)
  intro r
  apply mtot_ite (mtot_pure false)
  apply mtot_bind (mtot_forEachM _ _ (fun subvol =>
    mtot_bind (mtot_runCmd env (.btrfsSubvolCreate (USB_PERSIST ++ "/" ++ subvol)) true false true)
      (fun _ => mtot_pure ())))
  intro w
  apply mtot_bind (mtot_mkdirsOp _)
  intro w1
  apply mtot_bind (mtot_mkdirsOp _)
  intro w2
  apply mtot_bind (mtot_mkdirsOp _)
  intro w3
  exact mtot_bind (mtot_force_unmount env USB_PERSIST 3) (fun _ => mtot_pure true)

theorem mtot_install_bootloader (env : Env) (device : String) :
    MTot (install_bootloader env device) := by
  rcases hgp : get_partition_names device with ⟨p1, p2, p3⟩
  simp only [install_bootloader, hgp]
  apply mtot_bind (mtot_force_unmount env USB_BOOT 3)
  intro u
  apply mtot_bind (mtot_runCmd env (.mountPart p2 USB_BOOT) true false false)
  intro r
  apply mtot_ite (mtot_pure false)
  apply mtot_bind (mtot_runCmd env (.grubBios (USB_BOOT ++ "/boot") device) false false true)
  intro v
  apply mtot_bind mtot_prepare
  intro w
  apply mtot_bind (mtot_force_unmount env ESP_MOUNT 3)
  intro x
  apply mtot_bind (mtot_runCmd env (.mountPart p1 ESP_MOUNT) false false true)
  intro re
  apply mtot_bind
  · apply mtot_pyWhen
    apply mtot_bind (mtot_runCmd env (.grubEfi ESP_MOUNT (USB_BOOT ++ "/boot") device)
      false false true)
    intro y
    exact mtot_bind (mtot_force_unmount env ESP_MOUNT 3) (fun _ => mtot_pure ())
  intro z
  exact mtot_bind (mtot_force_unmount env USB_BOOT 3) (fun _ => mtot_pure true)

theorem mtot_create_readme (env : Env) (device : String) :
    MTot (create_readme env device) := by
  rcases hgp : get_partition_names device with ⟨p1, p2, p3⟩
  simp only [create_readme, hgp]
  apply mtot_bind (mtot_force_unmount env USB_BOOT 3)
  intro u
  apply mtot_bind (mtot_runCmd env (.mountPart p2 USB_BOOT) false false true)
  intro r
  apply mtot_ite
  · apply mtot_bind (mtot_writeFileOp _)
    intro v
    exact mtot_bind (mtot_force_unmount env USB_BOOT 3) (fun _ => mtot_pure ())
  · exact mtot_pure ()

theorem check_requirements_eq {env : Env} (h : env.missingPkgs = false) (st : St) :
    check_requirements env st = (.ok (), st) := by
  simp [check_requirements, h, pure_eq]

theorem runCmd_ok_step (env : Env) (c : Cmd) (k ig : Bool) (st : St)
    (h : okCmd env c) :
    runCmd env c k false ig st =
      (.ok .rTrue, stepSt st c (env.outcomes st.ctr c)) := by
  rw [runCmd_eq, runVal_ok (h st.ctr)]

theorem runCmd_fail_step (env : Env) (c : Cmd) (st : St)
    (h : failCmd env c) :
    runCmd env c true false false st =
      (.ok .rFalse, stepSt st c (env.outcomes st.ctr c)) := by
  rw [runCmd_eq, runVal_bad (h st.ctr)]

/-- When the ISO and boot mounts succeed and `sync` stays quiet,
`copy_iso_contents` returns `True` — regardless of the `rsync` outcome,
whose invocation is logged but whose result is discarded
(source line 398: `run_cmd(rsync_cmd, check=False)`). -/
theorem copy_iso_contents_ok (env : Env) (iso device : String)
    (hIso : okCmd env (.mountLoopRo iso ISO_MOUNT))
    (hBoot : okCmd env (.mountPart (get_partition_names device).2.1 USB_BOOT))
    (hSync : syncSafe env) (st : St) :
    ∃ st', copy_iso_contents env iso device st = (.ok true, st') ∧
      st.log <+: st'.log ∧ Ev.run (.rsync ISO_MOUNT USB_BOOT) ∈ st'.log := by
  rcases hgp : get_partition_names device with ⟨p1, p2, p3⟩
  rw [hgp] at hBoot
  obtain ⟨a0, s1, e1, f1⟩ := mtot_prepare st
  obtain ⟨b1, s2, e2, f2⟩ := mtot_force_unmount env ISO_MOUNT 3 s1
  have e3 := runCmd_ok_step env (.mountLoopRo iso ISO_MOUNT) true false s2 hIso
  set s3 := stepSt s2 (.mountLoopRo iso ISO_MOUNT)
    (env.outcomes s2.ctr (.mountLoopRo iso ISO_MOUNT)) with hs3
  obtain ⟨b2, s4, e4, f4⟩ := mtot_force_unmount env USB_BOOT 3 s3
  have e5 := runCmd_ok_step env (.mountPart p2 USB_BOOT) true false s4 hBoot
  set s5 := stepSt s4 (.mountPart p2 USB_BOOT)
    (env.outcomes s4.ctr (.mountPart p2 USB_BOOT)) with hs5
  have e6 := runCmd_eq env (.rsync ISO_MOUNT USB_BOOT) false false false s5
  set s6 := stepSt s5 (.rsync ISO_MOUNT USB_BOOT)
    (env.outcomes s5.ctr (.rsync ISO_MOUNT USB_BOOT)) with hs6
  have e7 := syncRun_ok hSync s6
  set s7 : St := { s6 with ctr := s6.ctr + 1, log := s6.log ++ [Ev.run .syncFs] } with hs7
  obtain ⟨b3, s8, e8, f8⟩ := mtot_force_unmount env USB_BOOT 3 s7
  obtain ⟨b4, s9, e9, f9⟩ := mtot_force_unmount env ISO_MOUNT 3 s8
  have hmem : Ev.run (.rsync ISO_MOUNT USB_BOOT) ∈ s9.log := by
    have h6 : Ev.run (.rsync ISO_MOUNT USB_BOOT) ∈ s6.log := by
      rw [hs6, stepSt_log]
      simp
    have h67 : s6.log <+: s7.log := by
      rw [hs7]
      exact List.prefix_append _ _
    exact ((h67.trans f8).trans f9).subset h6
  refine ⟨s9, ?_, ?_, hmem⟩
  · simp [copy_iso_contents, hgp, bind_ok e1, bind_ok e2, bind_ok e3, bind_ok e4,
      bind_ok e5, bind_ok e6, bind_ok e7, bind_ok e8, bind_ok e9, pure_eq, pyTruthy]
  · have g3 : s2.log <+: s3.log := by
      rw [hs3]
      exact stepSt_prefix _ _ _
    have g5 : s4.log <+: s5.log := by
      rw [hs5]
      exact stepSt_prefix _ _ _
    have g6 : s5.log <+: s6.log := by
      rw [hs6]
      exact stepSt_prefix _ _ _
    have g7 : s6.log <+: s7.log := by
      rw [hs7]
      exact List.prefix_append _ _
    exact ((((((((f1.trans f2).trans g3).trans f4).trans g5).trans g6).trans g7).trans
      f8).trans f9)

/-- When the ISO loop-mount fails, `copy_iso_contents` returns `False`
(source lines 372-374). -/
theorem copy_iso_contents_false (env : Env) (iso device : String)
    (hIso : failCmd env (.mountLoopRo iso ISO_MOUNT)) (st : St) :
    ∃ st', copy_iso_contents env iso device st = (.ok false, st') := by
  rcases hgp : get_partition_names device with ⟨p1, p2, p3⟩
  obtain ⟨a0, s1, e1, f1⟩ := mtot_prepare st
  obtain ⟨b1, s2, e2, f2⟩ := mtot_force_unmount env ISO_MOUNT 3 s1
  have e3 := runCmd_fail_step env (.mountLoopRo iso ISO_MOUNT) s2 hIso
  refine ⟨stepSt s2 (.mountLoopRo iso ISO_MOUNT)
    (env.outcomes s2.ctr (.mountLoopRo iso ISO_MOUNT)), ?_⟩
  simp [copy_iso_contents, hgp, bind_ok e1, bind_ok e2, bind_ok e3, pure_eq, pyTruthy]

/-- When the boot-partition mount succeeds and `sync` stays quiet,
`configure_persistence` returns `True` and writes `persistence.conf`
(source lines 413-463). -/
theorem configure_persistence_ok (env : Env) (device : String)
    (hBoot : okCmd env (.mountPart (get_partition_names device).2.1 USB_BOOT))
    (hSync : syncSafe env) (st : St) :
    ∃ st', configure_persistence env device st = (.ok true, st') ∧
      st.log <+: st'.log ∧ Ev.writeFile (USB_BOOT ++ "/persistence.conf") ∈ st'.log := by
  rcases hgp : get_partition_names device with ⟨p1, p2, p3⟩
  rw [hgp] at hBoot
  obtain ⟨b1, s1, e1, f1⟩ := mtot_force_unmount env USB_BOOT 3 st
  have e2 := runCmd_ok_step env (.mountPart p2 USB_BOOT) true false s1 hBoot
  set s2 := stepSt s1 (.mountPart p2 USB_BOOT)
    (env.outcomes s1.ctr (.mountPart p2 USB_BOOT)) with hs2
  have e3 : writeFileOp (USB_BOOT ++ "/persistence.conf") s2 = (.ok (),
      { s2 with
        log := s2.log ++ [Ev.writeFile (USB_BOOT ++ "/persistence.conf")],
        paths := if s2.paths.contains (USB_BOOT ++ "/persistence.conf") then s2.paths
          else s2.paths ++ [USB_BOOT ++ "/persistence.conf"] }) := rfl
  set s3 : St :=
    { s2 with
      log := s2.log ++ [Ev.writeFile (USB_BOOT ++ "/persistence.conf")],
      paths := if s2.paths.contains (USB_BOOT ++ "/persistence.conf") then s2.paths
        else s2.paths ++ [USB_BOOT ++ "/persistence.conf"] } with hs3
  have e4 : pathExists (USB_BOOT ++ "/boot/grub/grub.cfg") s3 =
      (.ok (s3.paths.contains (USB_BOOT ++ "/boot/grub/grub.cfg")), s3) := rfl
  obtain ⟨u5, s5, e5, f5⟩ :=
    mtot_pyWhen (c := s3.paths.contains (USB_BOOT ++ "/boot/grub/grub.cfg") = true)
      (mtot_pyWhen (c := (!(pyContains env.grub "persistence")) = true)
        (mtot_writeFileOp (USB_BOOT ++ "/boot/grub/grub.cfg"))) s3
  have e6 := syncRun_ok hSync s5
  set s6 : St := { s5 with ctr := s5.ctr + 1, log := s5.log ++ [Ev.run .syncFs] } with hs6
  obtain ⟨b7, s7, e7, f7⟩ := mtot_force_unmount env USB_BOOT 3 s6
  have hmem : Ev.writeFile (USB_BOOT ++ "/persistence.conf") ∈ s7.log := by
    have h3 : Ev.writeFile (USB_BOOT ++ "/persistence.conf") ∈ s3.log := by
      rw [hs3]
      simp
    have h56 : s5.log <+: s6.log := by
      rw [hs6]
      exact List.prefix_append _ _
    exact ((f5.trans h56).trans f7).subset h3
  refine ⟨s7, ?_, ?_, hmem⟩
  · simp [configure_persistence, hgp, bind_ok e1, bind_ok e2, bind_ok e3, bind_ok e4,
      bind_ok e5, bind_ok e6, bind_ok e7, pure_eq, pyTruthy]
  · have g2 : s1.log <+: s2.log := by
      rw [hs2]
      exact stepSt_prefix _ _ _
    have g3 : s2.log <+: s3.log := by
      rw [hs3]
      exact List.prefix_append _ _
    have g6 : s5.log <+: s6.log := by
      rw [hs6]
      exact List.prefix_append _ _
    exact (((((f1.trans g2).trans g3).trans f5).trans g6).trans f7)

theorem bind_err {α β : Type} {m : M α} {f : α → M β} {st st1 : St} {e : PyErr}
    (h : m st = (.err e, st1)) : (m >>= f) st = (.err e, st1) := by
  rw [bind_eq, h]

theorem pyWhen_pos {c : Prop} [Decidable c] (h : c) (m : M Unit) (st : St) :
    pyWhen c m st = m st := by
  simp [pyWhen, h]

theorem pyWhen_neg {c : Prop} [Decidable c] (h : ¬c) (m : M Unit) (st : St) :
    pyWhen c m st = (.ok (), st) := by
  simp [pyWhen, h, pure_eq]

/-- When no tool is missing, the mounts of the copy and configure stages
succeed and `sync` stays quiet, the whole pipeline body returns normally,
with the failed-or-not `rsync` invocation and the `persistence.conf` write
in the log. -/
theorem pipeline_ok (env : Env) (iso device : String)
    (hM : env.missingPkgs = false)
    (hIso : okCmd env (.mountLoopRo iso ISO_MOUNT))
    (hBoot : okCmd env (.mountPart (get_partition_names device).2.1 USB_BOOT))
    (hSync : syncSafe env) (st : St) :
    ∃ st', pipeline env iso device st = (.ok (), st') ∧
      Ev.run (.rsync ISO_MOUNT USB_BOOT) ∈ st'.log ∧
      Ev.writeFile (USB_BOOT ++ "/persistence.conf") ∈ st'.log := by
  have e1 := check_requirements_eq hM st
  obtain ⟨u2, s2, e2, f2⟩ := mtot_unmount_all env device st
  obtain ⟨u3, s3, e3, f3⟩ := mtot_create_partitions env device s2
  obtain ⟨u4, s4, e4, f4⟩ := mtot_setup_btrfs_subvolumes env device s3
  obtain ⟨s5, e5, f5, m5⟩ := copy_iso_contents_ok env iso device hIso hBoot hSync s4
  have e6 : pyWhen ((!true) = true) (pyRaise (α := Unit)
      (.exception "Failed to copy ISO")) s5 = (.ok (), s5) :=
    pyWhen_neg (by simp) _ s5
  obtain ⟨s7, e7, f7, m7⟩ := configure_persistence_ok env device hBoot hSync s5
  have e8 : pyWhen ((!true) = true) (pyRaise (α := Unit)
      (.exception "Failed to configure persistence")) s7 = (.ok (), s7) :=
    pyWhen_neg (by simp) _ s7
  obtain ⟨u9, s9, e9, f9⟩ := mtot_install_bootloader env device s7
  obtain ⟨u10, s10, e10, f10⟩ := mtot_create_readme env device s9
  obtain ⟨u11, s11, e11, f11⟩ := mtot_unmount_all env device s10
  have e12 := syncRun_ok hSync s11
  refine ⟨{ s11 with ctr := s11.ctr + 1, log := s11.log ++ [Ev.run Cmd.syncFs] }, ?_, ?_, ?_⟩
  · simp [pipeline, bind_ok e1, bind_ok e2, bind_ok e3, bind_ok e4, bind_ok e5,
      bind_ok e6, bind_ok e7, bind_ok e8, bind_ok e9, bind_ok e10, bind_ok e11, e12]
  · have p1 : s5.log <+: s7.log := f7
    have p2 : s7.log <+: s11.log := (f9.trans f10).trans f11
    have p3 : s11.log <+: s11.log ++ [Ev.run Cmd.syncFs] := List.prefix_append _ _
    exact (((p1.trans p2).trans p3)).subset m5
  · have p2 : s7.log <+: s11.log := (f9.trans f10).trans f11
    have p3 : s11.log <+: s11.log ++ [Ev.run Cmd.syncFs] := List.prefix_append _ _
    exact ((p2.trans p3)).subset m7

/-- When no tool is missing but the ISO mount always fails, the pipeline
body raises `Exception("Failed to copy ISO")` (source lines 713-714). -/
theorem pipeline_copy_fail (env : Env) (iso device : String)
    (hM : env.missingPkgs = false)
    (hIso : failCmd env (.mountLoopRo iso ISO_MOUNT)) (st : St) :
    ∃ stE, pipeline env iso device st = (.err (.exception "Failed to copy ISO"), stE) := by
  have e1 := check_requirements_eq hM st
  obtain ⟨u2, s2, e2, f2⟩ := mtot_unmount_all env device st
  obtain ⟨u3, s3, e3, f3⟩ := mtot_create_partitions env device s2
  obtain ⟨u4, s4, e4, f4⟩ := mtot_setup_btrfs_subvolumes env device s3
  obtain ⟨s5, e5⟩ := copy_iso_contents_false env iso device hIso s4
  have e6 : pyWhen ((!false) = true) (pyRaise (α := Unit)
      (.exception "Failed to copy ISO")) s5 =
      (.err (.exception "Failed to copy ISO"), s5) := by
    rw [pyWhen_pos (by simp) _ s5]
    rfl
  refine ⟨s5, ?_⟩
  simp [pipeline, bind_ok e1, bind_ok e2, bind_ok e3, bind_ok e4, bind_ok e5,
    bind_err e6]

/-- On the success path of the pipeline body, `main` falls through the try
block and the process ends with exit code 0 (source lines 707-735). -/
theorem main_run_of_ok {env : Env} {iso device st st'} 
    (hp : pipeline env iso device st = (.ok (), st')) :
    main_run env iso device "YES" st = (0, st') := by
  have hg : (pyStrip "YES" == "YES") = true := by decide
  simp [main_run, hg, hp]

/-- When the pipeline body raises an `Exception`, `main`'s handler runs the
`unmount_all` cleanup from the raise-point state and exits 1
(source lines 741-745). -/
theorem main_run_of_exception {env : Env} {iso device st stE msg}
    (hp : pipeline env iso device st = (.err (.exception msg), stE)) :
    ∃ stc, unmount_all env device stE = (.ok (), stc) ∧
      main_run env iso device "YES" st = (1, stc) := by
  obtain ⟨u, stc, ec, fc⟩ := mtot_unmount_all env device stE
  cases u
  have hg : (pyStrip "YES" == "YES") = true := by decide
  exact ⟨stc, ec, by simp [main_run, hg, hp, ec]⟩

theorem applyEff_false (m : List (String × String)) (c : Cmd) :
    applyEff m c false = m := by
  simp [applyEff]

theorem applyEff_fuser (m : List (String × String)) (p : String) (b : Bool) :
    applyEff m (.fuser p) b = m := by
  cases b <;> simp [applyEff]

theorem applyEff_umount_true (m : List (String × String)) (p : String) :
    applyEff m (.umount p) true = m.filter (fun q => !(q.1 == p || q.2 == p)) := by
  simp [applyEff]

theorem applyEff_umountLazy_false (m : List (String × String)) (p : String) (b : Bool)
    (h : b = false) : applyEff m (.umountLazy p) b = m := by
  simp [h, applyEff]

/-! ### Concrete environments and states used by the closed theorems -/

/-- A 4-path filesystem: the target device and its three partition nodes. -/
def stSdb : St :=
  { ctr := 0, mounted := [],
    paths := ["/dev/sdb", "/dev/sdb1", "/dev/sdb2", "/dev/sdb3"], log := [] }

/-- Every external command succeeds with empty output. -/
def envAllOk : Env :=
  { outcomes := fun _ _ => .ok ""
    kindOf := fun _ => .block
    missingPkgs := false
    btrfsMissing := false
    grub := "" }

/-- Every command succeeds except `rsync`, which exits nonzero. -/
def envRsyncFails : Env :=
  { envAllOk with outcomes := fun _ c =>
      match c with
      | .rsync _ _ => .fail
      | _ => .ok "" }

/-- Every command succeeds except the read-only loop mount of the image. -/
def envIsoMountFails : Env :=
  { envAllOk with outcomes := fun _ c =>
      match c with
      | .mountLoopRo _ _ => .fail
      | _ => .ok "" }

/-- Required tools are missing and remain missing after the install attempt. -/
def envMissingTools : Env :=
  { envAllOk with missingPkgs := true, btrfsMissing := true }

/-- Every external command exits nonzero. -/
def envAllFail : Env := { envAllOk with outcomes := fun _ _ => .fail }

/-- Every external command times out. -/
def envAllTimeout : Env := { envAllOk with outcomes := fun _ _ => .timeout }

/-- The target path exists but `os.stat` reports a directory. -/
def envDirKind : Env := { envAllOk with kindOf := fun _ => .dir }

/-- The `parted mkpart` commands of a log, as (fstype, start-MiB, end). -/
def mkpartCmds (log : List Ev) : List (String × Nat × PEnd) :=
  log.filterMap fun e =>
    match e with
    | .run (.partedMkpart _ fs a b) => some (fs, a, b)
    | _ => none

/-! ### Claim theorems -/

set_option maxRecDepth 100000

/-- C1.  With the default constants the `parted` calls issued by
`create_partitions` are `mkpart fat32 1MiB 512MiB`,
`mkpart fat32 512MiB 4608MiB` and `mkpart btrfs 4608MiB 100%`
(source lines 283-294): the ESP spans 511 MiB (1 MiB to 512 MiB), Boot
starts at 512 MiB — not 513 MiB — and Persistence starts at 4608 MiB — not
4609 MiB.  The code's own docstring and README promise a 512 MB ESP, so the
claimed layout (and the docstring) disagree with the issued commands by one
MiB: the end bound of the first `mkpart` should be `1 + ESP_SIZE_MB`. -/
theorem c1_create_partitions_layout :
    mkpartCmds ((create_partitions envAllOk "/dev/sdb" stSdb).2.log) =
      [("fat32", 1, .miB 512), ("fat32", 512, .miB 4608), ("btrfs", 4608, .pct100)] ∧
    ESP_SIZE_MB = 512 ∧ BOOT_SIZE_GB = 4 ∧ (1 : Nat) + ESP_SIZE_MB = 513 := by
  refine ⟨by decide, rfl, rfl, rfl⟩

/-- C3 counterexample.  A timed-out required command and an ordinary failed
required command produce the *same* `run_cmd` return value (`False`): the
return value does not distinguish a timeout from an ordinary failure; only
the printed message differs (source lines 61-72). -/
theorem c3_counterexample_timeout_not_distinct :
    (runCmd envAllTimeout (.partedMklabel "/dev/sdb") true false false stSdb).1 =
        .ok .rFalse ∧
    (runCmd envAllFail (.partedMklabel "/dev/sdb") true false false stSdb).1 =
        .ok .rFalse := by
  exact ⟨rfl, rfl⟩

/-- C3 amended.  On timeout `run_cmd` returns rather than raising: `None`
when `ignore_error` is set, `False` otherwise — the same values an ordinary
checked failure yields; and an advisory (`ignore_error`) command whose
checked or captured invocation fails returns `None` rather than aborting
(source lines 61-69). -/
theorem c3_run_cmd_timeout_and_advisory (env : Env) (c : Cmd) (k cap ig : Bool)
    (st : St) :
    (env.outcomes st.ctr c = .timeout →
      runCmd env c k cap ig st =
        (.ok (if ig then .rNone else .rFalse), stepSt st c (env.outcomes st.ctr c))) ∧
    (env.outcomes st.ctr c = .fail → ig = true → (cap = true ∨ k = true) →
      (runCmd env c k cap ig st).1 = .ok .rNone) := by
  constructor
  · intro h
    rw [runCmd_eq]
    simp [runVal, h]
  · intro h hig hck
    rw [runCmd_eq]
    rcases hck with h1 | h1
    · simp [runVal, h, hig, h1]
    · cases cap <;> simp [runVal, h, hig, h1]

/-- C3 amended, witness at a concrete input. -/
theorem c3_run_cmd_timeout_and_advisory_witness :
    runCmd envAllTimeout (.wipefs "/dev/sdb") true false true stSdb =
      (.ok .rNone, stepSt stSdb (.wipefs "/dev/sdb")
        (envAllTimeout.outcomes stSdb.ctr (.wipefs "/dev/sdb"))) ∧
    (runCmd envAllFail (.wipefs "/dev/sdb") true false true stSdb).1 = .ok .rNone := by
  constructor
  · have h := (c3_run_cmd_timeout_and_advisory envAllTimeout (.wipefs "/dev/sdb")
      true false true stSdb).1 rfl
    simpa using h
  · exact (c3_run_cmd_timeout_and_advisory envAllFail (.wipefs "/dev/sdb")
      true false true stSdb).2 rfl rfl (Or.inr rfl)

/-- C2 counterexample.  With every command succeeding except `rsync`
(which exits nonzero), the pipeline does not raise: the process ends with
exit code 0, the failed `rsync` is in the log, and the dependent
Configure-Persistence stage still ran (its `persistence.conf` write is in
the log).  The rsync failure is silently swallowed because the source runs
it with `check=False` and discards the result (source line 398). -/
theorem c2_counterexample_rsync_failure_swallowed :
    envRsyncFails.outcomes 0 (.rsync ISO_MOUNT USB_BOOT) = .fail ∧
    (main_run envRsyncFails "/x.iso" "/dev/sdb" "YES" stSdb).1 = 0 ∧
    Ev.run (.rsync ISO_MOUNT USB_BOOT) ∈
      (main_run envRsyncFails "/x.iso" "/dev/sdb" "YES" stSdb).2.log ∧
    Ev.writeFile (USB_BOOT ++ "/persistence.conf") ∈
      (main_run envRsyncFails "/x.iso" "/dev/sdb" "YES" stSdb).2.log := by
  obtain ⟨st', hp, hrsync, hconf⟩ := pipeline_ok envRsyncFails "/x.iso" "/dev/sdb"
    rfl (fun k => rfl) (fun k => rfl)
    (fun k => ⟨by simp [envRsyncFails, envAllOk], by simp [envRsyncFails, envAllOk]⟩) stSdb
  have hm := main_run_of_ok hp
  refine ⟨rfl, ?_, ?_, ?_⟩ <;> rw [hm]
  · exact hrsync
  · exact hconf

/-- C2 amended.  A *mount* failure in the Copy-Image-Contents stage does
halt the pipeline: when the ISO loop-mount always fails (and the required
tools are present), the pipeline body raises
`Exception("Failed to copy ISO")`, `main`'s handler performs the
`unmount_all` cleanup from the raise-point state, and the process exits 1.
The `rsync` copy command itself is advisory in the source
(`check=False`, result discarded), so only the mounts gate this stage. -/
theorem c2_mount_failure_raises_and_cleans (env : Env) (iso device : String)
    (st : St) (hM : env.missingPkgs = false)
    (hIso : failCmd env (.mountLoopRo iso ISO_MOUNT)) :
    ∃ stE stc,
      pipeline env iso device st = (.err (.exception "Failed to copy ISO"), stE) ∧
      unmount_all env device stE = (.ok (), stc) ∧
      main_run env iso device "YES" st = (1, stc) := by
  obtain ⟨stE, hp⟩ := pipeline_copy_fail env iso device hM hIso st
  obtain ⟨stc, hc, hm⟩ := main_run_of_exception hp
  exact ⟨stE, stc, hp, hc, hm⟩

/-- C2 amended, witness: concrete failing-ISO-mount run exits 1. -/
theorem c2_mount_failure_raises_and_cleans_witness :
    (main_run envIsoMountFails "/x.iso" "/dev/sdb" "YES" stSdb).1 = 1 := by
  obtain ⟨stE, stc, hp, hc, hm⟩ := c2_mount_failure_raises_and_cleans
    envIsoMountFails "/x.iso" "/dev/sdb" stSdb rfl (fun k => rfl)
  rw [hm]

/-- C4 counterexample.  The input `" YES"` (leading space) is not the
literal token `"YES"`, yet the run proceeds past the confirmation gate:
`input().strip()` (source line 699) removes the whitespace.  With a
missing-tool environment the proceeding run performs the apt commands and
exits 1 via `sys.exit(1)` — not the claimed decline with exit 0. -/
theorem c4_counterexample_padded_yes_proceeds :
    (" YES" : String) ≠ "YES" ∧
    (main_run envMissingTools "/x.iso" "/dev/sdb" " YES" stSdb).1 = 1 ∧
    (main_run envMissingTools "/x.iso" "/dev/sdb" " YES" stSdb).2.log =
      [Ev.run .aptUpdate, Ev.run .aptInstall] := by
  refine ⟨by decide, by decide, by decide⟩

/-- C4 amended.  The gate accepts exactly the inputs whose stripped form is
`"YES"`: every input with `input().strip() != "YES"` is declined with exit
code 0 and an unchanged state (no command issued, device untouched); in
particular lowercase `"yes"` is declined (source lines 699-701). -/
theorem c4_trimmed_yes_gate (env : Env) (iso device : String) (st : St)
    (s : String) :
    (pyStrip s ≠ "YES" → main_run env iso device s st = (0, st)) ∧
    main_run env iso device "yes" st = (0, st) := by
  constructor
  · intro h
    have hb : (pyStrip s == "YES") = false := by
      simp [h]
    simp [main_run, hb]
  · have hb : (pyStrip "yes" == "YES") = false := by decide
    simp [main_run, hb]

/-- C4 amended, witness: the input `"no"` is declined with exit 0. -/
theorem c4_trimmed_yes_gate_witness :
    main_run envAllOk "/x.iso" "/dev/sdb" "no" stSdb = (0, stSdb) :=
  (c4_trimmed_yes_gate envAllOk "/x.iso" "/dev/sdb" stSdb "no").1 (by decide)

/-- Return value of `validate_device`, stated from the spec's wording: the
path exists, `os.stat` reports a block device, and the mount-table query
did not succeed with output reporting a partition at a protected
mountpoint.  Compared against the embedded source function below. -/
def validateDeviceSpec (env : Env) (device : String) (st : St) : Bool :=
  st.paths.contains device &&
  (env.kindOf device == .block) &&
  !(match env.outcomes st.ctr (.lsblkMounts device) with
    | .ok out => !(pyStrip out == "") && anyCriticalLine (pyStrip out)
    | _ => false)

theorem validate_device_eq (env : Env) (device : String) (st : St) :
    (validate_device env device st).1 = .ok (validateDeviceSpec env device st) := by
  by_cases hex : device ∈ st.paths
  · by_cases hk : env.kindOf device = .block
    · cases ho : env.outcomes st.ctr (.lsblkMounts device) with
      | ok out =>
        by_cases hs : pyStrip out = ""
        · simp [validate_device, validateDeviceSpec, bind_eq, pathExists, hex, pure_eq,
            pyTryAll, pyTry, runCmd_eq, runVal, ho, hs, hk]
        · by_cases hcrit : anyCriticalLine (pyStrip out) = true
          · simp [validate_device, validateDeviceSpec, bind_eq, pathExists, hex, pure_eq,
              pyTryAll, pyTry, runCmd_eq, runVal, ho, hs, hk, hcrit]
          · simp [validate_device, validateDeviceSpec, bind_eq, pathExists, hex, pure_eq,
              pyTryAll, pyTry, runCmd_eq, runVal, ho, hs, hk, hcrit]
      | fail =>
        simp [validate_device, validateDeviceSpec, bind_eq, pathExists, hex, pure_eq,
          pyTryAll, pyTry, runCmd_eq, runVal, ho, hk]
      | timeout =>
        simp [validate_device, validateDeviceSpec, bind_eq, pathExists, hex, pure_eq,
          pyTryAll, pyTry, runCmd_eq, runVal, ho, hk]
      | exc =>
        simp [validate_device, validateDeviceSpec, bind_eq, pathExists, hex, pure_eq,
          pyTryAll, pyTry, runCmd_eq, runVal, ho, hk]
    · simp [validate_device, validateDeviceSpec, bind_eq, pathExists, hex, pure_eq, hk]
  · simp [validate_device, validateDeviceSpec, bind_eq, pathExists, hex, pure_eq]

/-- C5 counterexample.  A path that exists but is a *directory* — neither a
regular file, a character device, nor nonexistent, and with no partition
mounted anywhere — is rejected by `validate_device` (the `stat.S_ISBLK`
check at source lines 585-588 rejects every non-block kind), whereas the
claim's "returns true otherwise" would require `true` here. -/
theorem c5_counterexample_directory_path :
    envDirKind.kindOf "/dev/sdb" = .dir ∧
    FKind.dir ≠ FKind.reg ∧ FKind.dir ≠ FKind.chr ∧
    ("/dev/sdb" ∈ stSdb.paths) ∧
    (validate_device envDirKind "/dev/sdb" stSdb).1 = .ok false := by
  refine ⟨rfl, by decide, by decide, by decide, ?_⟩
  rfl

/-- C5 amended.  `validate_device` returns false when the path is
nonexistent or `os.stat` reports any non-block kind (regular file,
character device, directory, ...); returns false when the mount-table
query succeeds with output reporting a partition of the device mounted at
a protected mountpoint (`/`, `/boot`, `/boot/efi`, `/home`, `/usr`,
`/var`); and returns true otherwise — `validateDeviceSpec` states exactly
this, and the embedded source function always returns its value
(source lines 578-616). -/
theorem c5_validate_device_characterization (env : Env) (device : String) (st : St) :
    (validate_device env device st).1 = .ok (validateDeviceSpec env device st) :=
  validate_device_eq env device st

/-- C9.  Fail-open behaviour of the safety check: for an existing block
device, whenever the `lsblk` mount-table query fails (nonzero exit,
timeout, unexpected exception) or strips to empty output, the
critical-mountpoint check
is skipped and `validate_device` returns true (source lines 594-616). -/
theorem c9_validate_device_fails_open (env : Env) (device : String) (st : St)
    (hex : device ∈ st.paths) (hk : env.kindOf device = .block)
    (hq : ∀ out, env.outcomes st.ctr (.lsblkMounts device) = .ok out →
      pyStrip out = "") :
    (validate_device env device st).1 = .ok true := by
  rw [validate_device_eq]
  have hspec : validateDeviceSpec env device st = true := by
    cases ho : env.outcomes st.ctr (.lsblkMounts device) with
    | ok out => simp [validateDeviceSpec, hex, hk, ho, hq out ho]
    | fail => simp [validateDeviceSpec, hex, hk, ho]
    | timeout => simp [validateDeviceSpec, hex, hk, ho]
    | exc => simp [validateDeviceSpec, hex, hk, ho]
  rw [hspec]

/-- C9 witness: concrete block device whose `lsblk` query fails. -/
theorem c9_validate_device_fails_open_witness :
    (validate_device envAllFail "/dev/sdb" stSdb).1 = .ok true :=
  c9_validate_device_fails_open envAllFail "/dev/sdb" stSdb (by decide) rfl
    (fun out h => by simp [envAllFail, envAllOk] at h)

/-- C8.  `get_partition_names` appends `p1`/`p2`/`p3` exactly when the
device's base name starts with `mmcblk`, `nvme` or `loop` (memory-card,
NVMe and loop naming schemes), and `1`/`2`/`3` otherwise
(source lines 235-241). -/
theorem c8_partition_naming (device : String) :
    ((pyStartsWith (pyBasename device) "mmcblk" || pyStartsWith (pyBasename device) "nvme"
        || pyStartsWith (pyBasename device) "loop") = true →
      get_partition_names device = (device ++ "p1", device ++ "p2", device ++ "p3")) ∧
    ((pyStartsWith (pyBasename device) "mmcblk" || pyStartsWith (pyBasename device) "nvme"
        || pyStartsWith (pyBasename device) "loop") = false →
      get_partition_names device = (device ++ "1", device ++ "2", device ++ "3")) := by
  constructor <;> intro h <;> simp [get_partition_names, h]

/-- C8 witness: NVMe and SCSI-style names at concrete inputs. -/
theorem c8_partition_naming_witness :
    get_partition_names "/dev/nvme0n1" =
      ("/dev/nvme0n1p1", "/dev/nvme0n1p2", "/dev/nvme0n1p3") ∧
    get_partition_names "/dev/sdb" = ("/dev/sdb1", "/dev/sdb2", "/dev/sdb3") ∧
    get_partition_names "/dev/mmcblk0" =
      ("/dev/mmcblk0p1", "/dev/mmcblk0p2", "/dev/mmcblk0p3") ∧
    get_partition_names "/dev/loop7" =
      ("/dev/loop7p1", "/dev/loop7p2", "/dev/loop7p3") :=
  ⟨(c8_partition_naming "/dev/nvme0n1").1 (by decide),
   (c8_partition_naming "/dev/sdb").2 (by decide),
   (c8_partition_naming "/dev/mmcblk0").1 (by decide),
   (c8_partition_naming "/dev/loop7").1 (by decide)⟩

/-- C10.  For a path that does not exist, `force_unmount` returns `True`
immediately (source lines 148-149) with the state untouched — no mount
query, no `fuser`, no unmount command — for every `max_attempts` value. -/
theorem c10_force_unmount_nonexistent (env : Env) (p : String) (n : Nat) (st : St)
    (h : p ∉ st.paths) :
    force_unmount env p n st = (.ok true, st) := by
  simp [force_unmount, bind_eq, pathExists, pure_eq, h]

/-- C10 witness: a nonexistent mount point, `max_attempts = 5`. -/
theorem c10_force_unmount_nonexistent_witness :
    force_unmount envAllOk "/mnt/nonexistent" 5 stSdb = (.ok true, stSdb) :=
  c10_force_unmount_nonexistent envAllOk "/mnt/nonexistent" 5 stSdb (by decide)

/-- Environment whose plain `umount` succeeds only on its second issue
(command counter 2: first umount at 0, `fuser` at 1, second umount at 2). -/
def envSecondUmountOk : Env :=
  { envAllOk with outcomes := fun k c =>
      match c with
      | .umount _ => if k == 2 then .ok "" else .fail
      | _ => .ok "" }

/-- A state with the boot mount point mounted. -/
def stBootMounted : St :=
  { ctr := 0, mounted := [("/dev/sdb2", "/mnt/usb_boot")],
    paths := ["/mnt/usb_boot"], log := [] }

/-- C6.  `force_unmount` with the default `max_attempts = 3` escalates
exactly as the spec says (source lines 146-181).
Part 1: when the path is mounted, the first plain `umount` does not free it
and the second attempt's `umount` does, the call returns `True` after
issuing exactly `umount`, `fuser -km`, `umount` — attempt 1 is a plain
unmount, attempt 2 terminates holders first, and no lazy unmount is ever
issued.  Part 2: when every `umount` and lazy `umount` fails, the full
escalation runs: `umount`, then `fuser`+`umount` twice, with the lazy
unmount issued exactly once — on the final attempt while still mounted —
and the call returns `False`. -/
theorem c6_force_unmount_escalation :
    (∀ (env : Env) (s p : String) (st : St),
      p ∈ st.paths →
      st.mounted = [(s, p)] →
      outcomeOk (env.outcomes st.ctr (.umount p)) = false →
      outcomeOk (env.outcomes (st.ctr + 2) (.umount p)) = true →
      force_unmount env p 3 st =
        (.ok true,
          { st with
            ctr := st.ctr + 3
            mounted := []
            log := st.log ++ [.run (.umount p), .run (.fuser p), .run (.umount p)] })) ∧
    (∀ (env : Env) (s p : String) (st : St),
      p ∈ st.paths →
      st.mounted = [(s, p)] →
      (∀ k, outcomeOk (env.outcomes k (.umount p)) = false) →
      (∀ k, outcomeOk (env.outcomes k (.umountLazy p)) = false) →
      force_unmount env p 3 st =
        (.ok false,
          { st with
            ctr := st.ctr + 6
            mounted := [(s, p)]
            log := st.log ++ [.run (.umount p), .run (.fuser p), .run (.umount p),
              .run (.fuser p), .run (.umount p), .run (.umountLazy p)] })) := by
  constructor
  · intro env s p st hp hm h3 h4
    have h4' : outcomeOk (env.outcomes (st.ctr + 1 + 1) (.umount p)) = true := h4
    simp [force_unmount, fuLoop, bind_eq, pure_eq, pathExists, is_mounted, runCmd_eq,
      stepSt, pyWhen, applyEff_false, applyEff_fuser, applyEff_umount_true,
      hp, hm, h3, h4', List.append_assoc, St.mk.injEq]
  · intro env s p st hp hm hu hl
    simp [force_unmount, fuLoop, bind_eq, pure_eq, pathExists, is_mounted, runCmd_eq,
      stepSt, pyWhen, applyEff_false, applyEff_fuser,
      hp, hm, hu, hl, List.append_assoc, St.mk.injEq]

/-- C6 witness: both escalation traces at concrete inputs. -/
theorem c6_force_unmount_escalation_witness :
    force_unmount envSecondUmountOk "/mnt/usb_boot" 3 stBootMounted =
      (.ok true,
        { stBootMounted with
          ctr := 3
          mounted := []
          log := [.run (.umount "/mnt/usb_boot"), .run (.fuser "/mnt/usb_boot"),
            .run (.umount "/mnt/usb_boot")] }) ∧
    force_unmount envAllFail "/mnt/usb_boot" 3 stBootMounted =
      (.ok false,
        { stBootMounted with
          ctr := 6
          mounted := [("/dev/sdb2", "/mnt/usb_boot")]
          log := [.run (.umount "/mnt/usb_boot"), .run (.fuser "/mnt/usb_boot"),
            .run (.umount "/mnt/usb_boot"), .run (.fuser "/mnt/usb_boot"),
            .run (.umount "/mnt/usb_boot"), .run (.umountLazy "/mnt/usb_boot")] }) := by
  constructor
  · have h := c6_force_unmount_escalation.1 envSecondUmountOk "/dev/sdb2"
      "/mnt/usb_boot" stBootMounted (by decide) rfl (by decide) (by decide)
    simpa using h
  · have h := c6_force_unmount_escalation.2 envAllFail "/dev/sdb2"
      "/mnt/usb_boot" stBootMounted (by decide) rfl (fun k => rfl) (fun k => rfl)
    simpa using h

/-- C7.  `unmount_all` never raises: for every environment — every
combination of command failures, timeouts, unexpected exceptions and
unparsable `lsblk` output — it returns normally (every failure inside is
caught: `run_cmd` catches all exceptions, the partition sweep sits in a
bare try/except, source lines 184-222).  And it is idempotent on an
already-fully-unmounted device: run twice from an empty mount table, both
calls return normally and the mount table stays empty. -/
theorem c7_unmount_all_total_and_idempotent :
    (∀ (env : Env) (device : String) (st : St),
      ∃ st', unmount_all env device st = (.ok (), st')) ∧
    (∀ (env : Env) (device : String) (st : St), st.mounted = [] →
      ∃ st1 st2, unmount_all env device st = (.ok (), st1) ∧ st1.mounted = [] ∧
        unmount_all env device st1 = (.ok (), st2) ∧ st2.mounted = []) := by
  constructor
  · intro env device st
    obtain ⟨u, st', h, _⟩ := mtot_unmount_all env device st
    cases u
    exact ⟨st', h⟩
  · intro env device st h0
    obtain ⟨u1, st1, h1, n1⟩ := mnil_unmount_all env device st h0
    cases u1
    obtain ⟨u2, st2, h2, n2⟩ := mnil_unmount_all env device st1 n1
    cases u2
    exact ⟨st1, st2, h1, n1, h2, n2⟩

/-- C7 witness: concrete double run on an unmounted device. -/
theorem c7_unmount_all_total_and_idempotent_witness :
    (unmount_all envAllOk "/dev/sdb" stSdb).1 = .ok () ∧
    (unmount_all envAllOk "/dev/sdb" stSdb).2.mounted = [] := by
  obtain ⟨st1, st2, h1, n1, h2, n2⟩ :=
    c7_unmount_all_total_and_idempotent.2 envAllOk "/dev/sdb" stSdb rfl
  constructor
  · rw [h1]
  · rw [h1]
    exact n1
